import Mathlib

/-!
Shallow embedding of the urban-mobility ETL pipeline (src/etl/etl.py) and
proofs about the claims of its specification.

Modelling conventions:
* pandas/NumPy NaN and Python None are both modelled as `Option.none`;
  numeric values are rationals (`ℚ`), except for the haversine distance
  computation, which uses real numbers because it involves trigonometric
  functions.  Timestamps are modelled as rational epoch seconds, which is
  order- and subtraction-isomorphic to the pandas Timestamp values the
  script actually compares and subtracts.
* A dataframe chunk is a list of rows.  A column that was never bound by
  `detect_and_assign_columns` is represented by the corresponding
  `has...Col` flag being `false`; per-row missing values are `none`.
* The MySQL vendors table is modelled as an association list from vendor
  code to surrogate id together with an auto-increment counter; the number
  of executed SELECT statements is tracked in `selects` so that claims
  about "store accesses" can be stated.
-/

namespace ETL

/-- Geographic bounds (NYC approx), `MIN_LAT, MAX_LAT = 40.4, 40.95` in etl.py. -/
def MIN_LAT : ℚ := 40.4

/-- Upper latitude bound from etl.py. -/
def MAX_LAT : ℚ := 40.95

/-- Lower longitude bound from etl.py. -/
def MIN_LON : ℚ := -74.35

/-- Upper longitude bound from etl.py. -/
def MAX_LON : ℚ := -73.7

/-- `is_valid_coordinate(lat, lon)` from etl.py: NaN components make the
coordinate invalid, otherwise both components must lie inside the
configured bounding box (inclusive comparisons). -/
def is_valid_coordinate (lat lon : Option ℚ) : Bool :=
  match lat, lon with
  | some la, some lo =>
      decide (MIN_LAT ≤ la ∧ la ≤ MAX_LAT ∧ MIN_LON ≤ lo ∧ lo ≤ MAX_LON)
  | _, _ => false

/-- `safe_div(a, b)` from etl.py: `None` if either operand is missing or the
denominator is zero. -/
def safe_div (a b : Option ℚ) : Option ℚ :=
  match a, b with
  | some x, some y => if y = 0 then none else some (x / y)
  | _, _ => none

/-- `compute_speed(row)` from etl.py (lines 206-215): NaN when duration or
distance is missing or non-positive, otherwise `dist / (td / 3600.0)`. -/
def compute_speed (td dist : Option ℚ) : Option ℚ :=
  match td, dist with
  | some t, some d => if t ≤ 0 ∨ d ≤ 0 then none else some (d / (t / 3600))
  | _, _ => none

/-- Elementwise pandas addition: NaN propagates. -/
def opt_add : Option ℚ → Option ℚ → Option ℚ
  | some a, some b => some (a + b)
  | _, _ => none

/-- Elementwise pandas multiplication: NaN propagates. -/
def opt_mul : Option ℚ → Option ℚ → Option ℚ
  | some a, some b => some (a * b)
  | _, _ => none

/-- Elementwise pandas subtraction: NaN (or NaT) propagates. -/
def opt_sub : Option ℚ → Option ℚ → Option ℚ
  | some a, some b => some (a - b)
  | _, _ => none

/-- pandas `Series.clip(lower=c)`: NaN stays NaN, defined values are raised
to at least `c`. -/
def clip_lower (c : ℚ) (x : Option ℚ) : Option ℚ :=
  x.map (fun v => max v c)

/-- The fare estimation expression of etl.py line 202-203:
`2.50 + (dist * 2.50) + ((dur / 60) * 0.40)` followed by
`.clip(lower=2.50)`.  NaN in either input propagates to NaN. -/
def estimate_fare (dist dur : Option ℚ) : Option ℚ :=
  clip_lower 2.5
    (opt_add (opt_add (some 2.5) (opt_mul dist (some 2.5)))
      (opt_mul (dur.map (fun t => t / 60)) (some 0.4)))

/-- One row of a chunk after column normalization (the canonical columns of
`detect_and_assign_columns`), plus the derived columns added by
`clean_chunk`.  Columns that have not been derived yet are `none`. -/
structure Row where
  pickup_datetime : Option ℚ
  dropoff_datetime : Option ℚ
  pickup_lat : Option ℚ
  pickup_lon : Option ℚ
  dropoff_lat : Option ℚ
  dropoff_lon : Option ℚ
  trip_distance_km : Option ℚ
  trip_duration_seconds : Option ℚ
  fare_amount : Option ℚ
  tip_amount : Option ℚ
  trip_speed_kmh : Option ℚ
  vendor_code : Option String
deriving DecidableEq

/-- A row with every field missing; concrete rows are built from it. -/
def empty_row : Row :=
  { pickup_datetime := none
    dropoff_datetime := none
    pickup_lat := none
    pickup_lon := none
    dropoff_lat := none
    dropoff_lon := none
    trip_distance_km := none
    trip_duration_seconds := none
    fare_amount := none
    tip_amount := none
    trip_speed_kmh := none
    vendor_code := none }

/-- etl.py lines 185-189 (under the only non-crashing path, where both
timestamp columns are bound): if no duration column was bound, or every
value in it is NaN, recompute the whole column as
`(dropoff_datetime - pickup_datetime).dt.total_seconds()`; otherwise the
column is kept unchanged. -/
def duration_step (hasDurationCol : Bool) (rows : List Row) : List Row :=
  if !hasDurationCol || rows.all (fun r => r.trip_duration_seconds.isNone) then
    rows.map (fun r =>
      { r with trip_duration_seconds := opt_sub r.dropoff_datetime r.pickup_datetime })
  else rows

/-- etl.py lines 200-203: if no fare column was bound, or every value in it
is NaN, the whole fare column is recomputed with `estimate_fare`; otherwise
the column (including its NaN entries) is kept unchanged. -/
def fare_step (hasFareCol : Bool) (rows : List Row) : List Row :=
  if !hasFareCol || rows.all (fun r => r.fare_amount.isNone) then
    rows.map (fun r =>
      { r with fare_amount := estimate_fare r.trip_distance_km r.trip_duration_seconds })
  else rows

/-- etl.py line 217: the speed column is computed per row with
`compute_speed`. -/
def speed_step (rows : List Row) : List Row :=
  rows.map (fun r =>
    { r with trip_speed_kmh := compute_speed r.trip_duration_seconds r.trip_distance_km })

/-- The rejection reason codes appended by the validation loop of
`clean_chunk` (etl.py lines 230-259). -/
inductive Reason where
  | missing_timestamps
  | dropoff_before_pickup
  | invalid_pickup_coord
  | invalid_dropoff_coord
  | invalid_distance
  | invalid_duration
  | invalid_fare
  | unrealistic_speed
deriving DecidableEq, Repr

/-- etl.py lines 233-238: `missing_timestamps` when either timestamp is
NaT, otherwise `dropoff_before_pickup` when dropoff is strictly earlier
than pickup. -/
def ts_reasons (r : Row) : List Reason :=
  match r.pickup_datetime, r.dropoff_datetime with
  | some p, some d => if d < p then [Reason.dropoff_before_pickup] else []
  | _, _ => [Reason.missing_timestamps]

/-- etl.py lines 241-242. -/
def pickup_coord_reasons (r : Row) : List Reason :=
  if is_valid_coordinate r.pickup_lat r.pickup_lon then [] else [Reason.invalid_pickup_coord]

/-- etl.py lines 243-244. -/
def dropoff_coord_reasons (r : Row) : List Reason :=
  if is_valid_coordinate r.dropoff_lat r.dropoff_lon then [] else [Reason.invalid_dropoff_coord]

/-- etl.py lines 247-248: distance NaN or negative. -/
def distance_reasons (r : Row) : List Reason :=
  match r.trip_distance_km with
  | none => [Reason.invalid_distance]
  | some d => if d < 0 then [Reason.invalid_distance] else []

/-- etl.py lines 249-250: duration NaN or non-positive. -/
def duration_reasons (r : Row) : List Reason :=
  match r.trip_duration_seconds with
  | none => [Reason.invalid_duration]
  | some t => if t ≤ 0 then [Reason.invalid_duration] else []

/-- etl.py lines 253-254: fare NaN or negative. -/
def fare_reasons (r : Row) : List Reason :=
  match r.fare_amount with
  | none => [Reason.invalid_fare]
  | some f => if f < 0 then [Reason.invalid_fare] else []

/-- etl.py lines 257-259: speed defined (hence finite in this model) and
strictly greater than 200. -/
def speed_reasons (r : Row) : List Reason :=
  match r.trip_speed_kmh with
  | none => []
  | some s => if 200 < s then [Reason.unrealistic_speed] else []

/-- The full reason list accumulated by the validation loop of
`clean_chunk`, in the order in which etl.py appends the reasons. -/
def validateRow (r : Row) : List Reason :=
  ts_reasons r ++ pickup_coord_reasons r ++ dropoff_coord_reasons r ++
    distance_reasons r ++ duration_reasons r ++ fare_reasons r ++ speed_reasons r

/-- Insertion into a sorted list of rationals, used to model the sorting
performed inside the pandas `median`. -/
def insert_sorted (x : ℚ) : List ℚ → List ℚ
  | [] => [x]
  | y :: ys => if x ≤ y then x :: y :: ys else y :: insert_sorted x ys

/-- Insertion sort of rationals (the order pandas uses for its median). -/
def sortQ : List ℚ → List ℚ
  | [] => []
  | x :: xs => insert_sorted x (sortQ xs)

/-- pandas `Series.mean()` on the non-NaN values. -/
def meanQ (l : List ℚ) : ℚ := l.sum / l.length

/-- pandas `Series.median()` on the non-NaN values: middle element of the
sorted list for odd length, average of the two middle elements for even
length. -/
def medianQ (l : List ℚ) : ℚ :=
  if l.length % 2 = 1 then (sortQ l).getD (l.length / 2) 0
  else ((sortQ l).getD (l.length / 2 - 1) 0 + (sortQ l).getD (l.length / 2) 0) / 2

/-- etl.py lines 145-149: after a distance-like column was bound, drop the
NaN entries; if there is at least one remaining value, the mean is under
200 and the median is under 30, multiply the whole column (NaN entries
stay NaN) by 1.60934, otherwise leave the column untouched. -/
def convert_distance_units (col : List (Option ℚ)) : List (Option ℚ) :=
  if 0 < (col.filterMap id).length ∧ meanQ (col.filterMap id) < 200 ∧
      medianQ (col.filterMap id) < 30 then
    col.map (Option.map (fun x : ℚ => x * 1.60934))
  else col

/-- Modelled from the spec (section 4.3): the per-rule firing conditions,
written independently from the accumulated list so that the validator can
be compared against them. -/
def ruleFires (r : Row) : Reason → Prop
  | Reason.missing_timestamps => r.pickup_datetime = none ∨ r.dropoff_datetime = none
  | Reason.dropoff_before_pickup =>
      ∃ p d, r.pickup_datetime = some p ∧ r.dropoff_datetime = some d ∧ d < p
  | Reason.invalid_pickup_coord => is_valid_coordinate r.pickup_lat r.pickup_lon = false
  | Reason.invalid_dropoff_coord => is_valid_coordinate r.dropoff_lat r.dropoff_lon = false
  | Reason.invalid_distance =>
      r.trip_distance_km = none ∨ ∃ d, r.trip_distance_km = some d ∧ d < 0
  | Reason.invalid_duration =>
      r.trip_duration_seconds = none ∨ ∃ t, r.trip_duration_seconds = some t ∧ t ≤ 0
  | Reason.invalid_fare =>
      r.fare_amount = none ∨ ∃ f, r.fare_amount = some f ∧ f < 0
  | Reason.unrealistic_speed => ∃ s, r.trip_speed_kmh = some s ∧ 200 < s

/-- The separator string used by `";".join(reasons)` in etl.py. -/
def semicolon : String := ";"

/-- The empty sample reason logged when a chunk has no rejected rows. -/
def empty_sample : String := ""

/-- The reason strings appended by the validation loop of etl.py. -/
def reason_str : Reason → String
  | Reason.missing_timestamps => "missing_timestamps"
  | Reason.dropoff_before_pickup => "dropoff_before_pickup"
  | Reason.invalid_pickup_coord => "invalid_pickup_coord"
  | Reason.invalid_dropoff_coord => "invalid_dropoff_coord"
  | Reason.invalid_distance => "invalid_distance"
  | Reason.invalid_duration => "invalid_duration"
  | Reason.invalid_fare => "invalid_fare"
  | Reason.unrealistic_speed => "unrealistic_speed"

/-- `";".join(reasons)` from etl.py line 292. -/
def joined_reasons (l : List Reason) : String :=
  String.intercalate semicolon (l.map reason_str)

/-- The `excluded_rows` list produced by `clean_chunk` for one chunk of
(already derived) rows: one joined reason string per row whose reason list
is non-empty, in row order (etl.py lines 291-293). -/
def excluded_of (rows : List Row) : List String :=
  ((rows.map validateRow).filter (fun l => !l.isEmpty)).map joined_reasons

/-- One row of the cleaning log file `data/logs/cleaning_log.csv`. -/
structure LogEntry where
  chunk_index : Nat
  excluded_count : Nat
  sample_reason : String
deriving DecidableEq, Repr

/-- The cleaning log file: whether the header row is present, and the data
rows below it. -/
structure LogFile where
  hasHeader : Bool
  entries : List LogEntry
deriving DecidableEq, Repr

/-- etl.py lines 386-389: if the log file does not exist it is created
containing only the header row; an existing file is left as it is. -/
def ensure_log (f : Option LogFile) : LogFile :=
  match f with
  | none => { hasHeader := true, entries := [] }
  | some file => file

/-- The log row written for one processed chunk (etl.py lines 409-412):
the 1-based chunk index, the number of excluded rows, and the first
excluded row's joined reason string (empty if the chunk had none). -/
def chunk_log_entry (i : Nat) (rows : List Row) : LogEntry :=
  { chunk_index := i
    excluded_count := (excluded_of rows).length
    sample_reason := (excluded_of rows).headD empty_sample }

/-- The chunk loop of `main` restricted to its effect on the cleaning log:
`chunk_index` is incremented before each chunk is processed and exactly one
entry is appended per chunk. -/
def etl_loop (file : LogFile) (idx : Nat) : List (List Row) → LogFile
  | [] => file
  | ch :: rest =>
      etl_loop { file with entries := file.entries ++ [chunk_log_entry (idx + 1) ch] }
        (idx + 1) rest

/-- A whole run's effect on the cleaning log: ensure the header, then run
the chunk loop starting from `chunk_index = 0`. -/
def run_etl_log (f : Option LogFile) (chunks : List (List Row)) : LogFile :=
  etl_loop (ensure_log f) 0 chunks

/-- The vendors dimension table plus the run's connection statistics:
`vendors` maps vendor codes to surrogate ids, `next_id` is the store's
auto-increment counter, and `selects` counts executed SELECT statements
(the "store accesses" of vendor resolution). -/
structure VendorStore where
  vendors : List (String × Nat)
  next_id : Nat
  selects : Nat
deriving DecidableEq, Repr

/-- First-match lookup in the vendors table (the SELECT by unique
`vendor_code`). -/
def find_vendor (c : String) : List (String × Nat) → Option Nat
  | [] => none
  | (k, v) :: rest => if c = k then some v else find_vendor c rest

/-- Result of `get_or_create_vendor`: the returned surrogate id, the store
afterwards, and the list of codes inserted by this call ([] or [code]). -/
structure VendorResult where
  vid : Nat
  store : VendorStore
  ins : List String
deriving DecidableEq, Repr

/-- `get_or_create_vendor(conn, vendor_code)` from etl.py lines 154-177 for
a non-None code: one SELECT always runs; if the code is found its id is
returned, otherwise a new row is inserted (committed immediately) and the
store-assigned id is returned. -/
def get_or_create_vendor (st : VendorStore) (code : String) : VendorResult :=
  match find_vendor code st.vendors with
  | some v =>
      { vid := v
        store := { st with selects := st.selects + 1 }
        ins := [] }
  | none =>
      { vid := st.next_id
        store :=
          { vendors := st.vendors ++ [(code, st.next_id)]
            next_id := st.next_id + 1
            selects := st.selects + 1 }
        ins := [code] }

/-- State threaded through vendor resolution: the store, the in-memory
`vendor_cache` dict, and the accumulated list of inserted codes. -/
structure ResolveState where
  store : VendorStore
  cache : List (String × Nat)
  ins : List String
deriving DecidableEq, Repr

/-- Vendor resolution for one accepted row (etl.py lines 263-266): a falsy
code (None or the empty string) resolves to None without touching cache or
store; otherwise the cache is consulted first and `get_or_create_vendor`
only runs on a cache miss, its result being memoised. -/
def resolve_row (s : ResolveState) (code : Option String) : Option Nat × ResolveState :=
  match code with
  | none => (none, s)
  | some c =>
      if c = "" then (none, s)
      else
        match find_vendor c s.cache with
        | some v => (some v, s)
        | none =>
            (some (get_or_create_vendor s.store c).vid,
              { store := (get_or_create_vendor s.store c).store
                cache := s.cache ++ [(c, (get_or_create_vendor s.store c).vid)]
                ins := s.ins ++ (get_or_create_vendor s.store c).ins })

/-- Vendor resolution for the accepted rows of one chunk, in row order. -/
def resolve_rows (s : ResolveState) : List (Option String) → List (Option Nat) × ResolveState
  | [] => ([], s)
  | code :: rest =>
      ((resolve_row s code).1 :: (resolve_rows (resolve_row s code).2 rest).1,
        (resolve_rows (resolve_row s code).2 rest).2)

/-- Vendor resolution over a whole run: `clean_chunk` creates a fresh empty
`vendor_cache` for every chunk (etl.py line 224), while the store persists
across chunks. -/
def run_resolve (st : VendorStore) (ins : List String) :
    List (List (Option String)) → List (List (Option Nat)) × VendorStore × List String
  | [] => ([], st, ins)
  | ch :: rest =>
      ((resolve_rows { store := st, cache := [], ins := ins } ch).1 ::
          (run_resolve (resolve_rows { store := st, cache := [], ins := ins } ch).2.store
            (resolve_rows { store := st, cache := [], ins := ins } ch).2.ins rest).1,
        (run_resolve (resolve_rows { store := st, cache := [], ins := ins } ch).2.store
          (resolve_rows { store := st, cache := [], ins := ins } ch).2.ins rest).2)

/-- Occurrence count of a code in a list of inserted codes. -/
def count_code (c : String) : List String → Nat
  | [] => 0
  | x :: rest => (if c = x then 1 else 0) + count_code c rest

/-- 1 when the code is absent from the vendors table, 0 otherwise; the
"insert budget" still available for the code. -/
def miss_ind (c : String) (st : VendorStore) : Nat :=
  if find_vendor c st.vendors = none then 1 else 0

/-- Coherence of the per-chunk cache with the store: every cached id is
what the store's SELECT would return. -/
def cacheOk (s : ResolveState) : Prop :=
  ∀ a v, find_vendor a s.cache = some v → find_vendor a s.store.vendors = some v

/-- Python's `math.atan2(y, x)` (two-argument arctangent with the usual
quadrant corrections). -/
noncomputable def atan2 (y x : ℝ) : ℝ :=
  if 0 < x then Real.arctan (y / x)
  else if x < 0 then
    (if 0 ≤ y then Real.arctan (y / x) + Real.pi else Real.arctan (y / x) - Real.pi)
  else (if 0 < y then Real.pi / 2 else if y < 0 then -(Real.pi / 2) else 0)

/-- The intermediate value `a` of `haversine_distance` in etl.py line 38,
with the four inputs already converted to radians (`radians(x) = x*π/180`). -/
noncomputable def hav_a (lat1 lon1 lat2 lon2 : ℝ) : ℝ :=
  Real.sin ((lat2 * Real.pi / 180 - lat1 * Real.pi / 180) / 2) ^ 2 +
    Real.cos (lat1 * Real.pi / 180) * Real.cos (lat2 * Real.pi / 180) *
      Real.sin ((lon2 * Real.pi / 180 - lon1 * Real.pi / 180) / 2) ^ 2

/-- The distance value returned by `haversine_distance` on defined inputs:
`R * c` with `c = 2 * atan2(sqrt(a), sqrt(1-a))` and `R = 6371` km. -/
noncomputable def hav_core (lat1 lon1 lat2 lon2 : ℝ) : ℝ :=
  6371 * (2 * atan2 (Real.sqrt (hav_a lat1 lon1 lat2 lon2))
    (Real.sqrt (1 - hav_a lat1 lon1 lat2 lon2)))

/-- `haversine_distance(lat1, lon1, lat2, lon2)` from etl.py lines 29-43:
None if any input is NaN, otherwise the great-circle distance with Earth
radius 6371 km. -/
noncomputable def haversine_distance : Option ℝ → Option ℝ → Option ℝ → Option ℝ → Option ℝ
  | some lat1, some lon1, some lat2, some lon2 => some (hav_core lat1 lon1 lat2 lon2)
  | _, _, _, _ => none

/-- The coordinate and distance columns of one row, real-valued, used for
the distance-derivation step of `clean_chunk`. -/
structure RRow where
  pickup_lat : Option ℝ
  pickup_lon : Option ℝ
  dropoff_lat : Option ℝ
  dropoff_lon : Option ℝ
  trip_distance_km : Option ℝ

/-- etl.py lines 191-198: if no distance column was bound, or every value
in it is NaN, the whole column is recomputed per row with
`haversine_distance` on the pickup/dropoff coordinates; otherwise the
column (including its NaN entries) is kept unchanged. -/
noncomputable def distance_step (hasDistanceCol : Bool) (rows : List RRow) : List RRow :=
  if !hasDistanceCol || rows.all (fun r => r.trip_distance_km.isNone) then
    rows.map (fun r =>
      { r with trip_distance_km :=
          haversine_distance r.pickup_lat r.pickup_lon r.dropoff_lat r.dropoff_lon })
  else rows

/-- A real-valued row with all columns missing. -/
def empty_rrow : RRow :=
  { pickup_lat := none
    pickup_lon := none
    dropoff_lat := none
    dropoff_lon := none
    trip_distance_km := none }

/-- Counterexample chunk for the distance claim: the bound distance column
has a defined value in the first row. -/
noncomputable def ce3_r1 : RRow := { empty_rrow with trip_distance_km := some 5 }

/-- Second row of the counterexample chunk: NaN distance but fully defined
(and coincident) pickup/dropoff coordinates. -/
noncomputable def ce3_r2 : RRow :=
  { pickup_lat := some 40.5
    pickup_lon := some (-74)
    dropoff_lat := some 40.5
    dropoff_lon := some (-74)
    trip_distance_km := none }

/-- Counterexample chunk for the fare claim: the bound fare column has a
defined value in the first row. -/
def ce2_r1 : Row := { empty_row with fare_amount := some 10 }

/-- Second row of the fare counterexample chunk: NaN fare, distance 4 km and
duration 600 s (the spec's own estimation scenario). -/
def ce2_r2 : Row :=
  { empty_row with trip_distance_km := some 4, trip_duration_seconds := some 600 }

/-- An empty vendor store at the start of a run. -/
def st0ex : VendorStore := { vendors := [], next_id := 0, selects := 0 }

/-- A concrete vendor code used in witnesses and counterexamples. -/
def codeA : String := "A"

/-- A derived row whose speed column is 250 km/h (for the speed-rule
witness). -/
def speed_row : Row := { empty_row with trip_speed_kmh := some 250 }

/-- A derived row whose pickup coordinate sits exactly on the bounding-box
corner (40.4, -74.35) (for the inclusive-boundary witness). -/
def boundary_row : Row :=
  { empty_row with pickup_lat := some 40.4, pickup_lon := some (-74.35) }

/-- A derived row with both timestamps defined, dropoff before pickup, and
undefined (hence invalid) pickup coordinates (the example record of the
validator claim). -/
def eg_row : Row :=
  { empty_row with pickup_datetime := some 100, dropoff_datetime := some 50 }

/-- A bound distance column with miles-like statistics (mean and median
8.2, below the 200/30 thresholds) and one NaN entry. -/
def c5_col : List (Option ℚ) := [some 8.2, none]

theorem mem_ts_reasons (r : Row) (c : Reason) :
    c ∈ ts_reasons r ↔
      (c = Reason.missing_timestamps ∧ (r.pickup_datetime = none ∨ r.dropoff_datetime = none)) ∨
      (c = Reason.dropoff_before_pickup ∧
        ∃ p d, r.pickup_datetime = some p ∧ r.dropoff_datetime = some d ∧ d < p) := by
  rcases hp : r.pickup_datetime with _ | p <;> rcases hd : r.dropoff_datetime with _ | d <;>
    simp [ts_reasons, hp, hd]
  by_cases hlt : d < p <;> simp [hlt]

theorem mem_pickup_coord_reasons (r : Row) (c : Reason) :
    c ∈ pickup_coord_reasons r ↔
      c = Reason.invalid_pickup_coord ∧
        is_valid_coordinate r.pickup_lat r.pickup_lon = false := by
  by_cases h : is_valid_coordinate r.pickup_lat r.pickup_lon <;>
    simp [pickup_coord_reasons, h]

theorem mem_dropoff_coord_reasons (r : Row) (c : Reason) :
    c ∈ dropoff_coord_reasons r ↔
      c = Reason.invalid_dropoff_coord ∧
        is_valid_coordinate r.dropoff_lat r.dropoff_lon = false := by
  by_cases h : is_valid_coordinate r.dropoff_lat r.dropoff_lon <;>
    simp [dropoff_coord_reasons, h]

theorem mem_distance_reasons (r : Row) (c : Reason) :
    c ∈ distance_reasons r ↔
      c = Reason.invalid_distance ∧
        (r.trip_distance_km = none ∨ ∃ d, r.trip_distance_km = some d ∧ d < 0) := by
  rcases h : r.trip_distance_km with _ | d <;> simp [distance_reasons, h]
  by_cases hlt : d < 0 <;> simp [hlt]

theorem mem_duration_reasons (r : Row) (c : Reason) :
    c ∈ duration_reasons r ↔
      c = Reason.invalid_duration ∧
        (r.trip_duration_seconds = none ∨ ∃ t, r.trip_duration_seconds = some t ∧ t ≤ 0) := by
  rcases h : r.trip_duration_seconds with _ | t <;> simp [duration_reasons, h]
  by_cases hle : t ≤ 0 <;> simp [hle]

theorem mem_fare_reasons (r : Row) (c : Reason) :
    c ∈ fare_reasons r ↔
      c = Reason.invalid_fare ∧
        (r.fare_amount = none ∨ ∃ f, r.fare_amount = some f ∧ f < 0) := by
  rcases h : r.fare_amount with _ | f <;> simp [fare_reasons, h]
  by_cases hlt : f < 0 <;> simp [hlt]

theorem mem_speed_reasons (r : Row) (c : Reason) :
    c ∈ speed_reasons r ↔
      c = Reason.unrealistic_speed ∧ ∃ s, r.trip_speed_kmh = some s ∧ 200 < s := by
  rcases h : r.trip_speed_kmh with _ | s <;> simp [speed_reasons, h]
  by_cases hlt : 200 < s <;> simp [hlt]

theorem mem_validateRow (r : Row) (c : Reason) : c ∈ validateRow r ↔ ruleFires r c := by
  cases c <;>
    simp [validateRow, List.mem_append, mem_ts_reasons, mem_pickup_coord_reasons,
      mem_dropoff_coord_reasons, mem_distance_reasons, mem_duration_reasons,
      mem_fare_reasons, mem_speed_reasons, ruleFires]

/-- C4: for every derived record the validator evaluates all rules without
short-circuiting: the record is accepted (empty reason list) exactly when
no rule fires, and every rule that fires contributes its reason code to
the accumulated list. -/
theorem c4_validator_all_rules (r : Row) :
    (validateRow r = [] ↔ ∀ c, ¬ ruleFires r c) ∧
    (∀ c, c ∈ validateRow r ↔ ruleFires r c) := by
  constructor
  · constructor
    · intro h c hf
      have hm := (mem_validateRow r c).mpr hf
      rw [h] at hm
      exact absurd hm (List.not_mem_nil c)
    · intro h
      by_contra hne
      obtain ⟨c, hc⟩ := List.exists_mem_of_ne_nil _ hne
      exact h c ((mem_validateRow r c).mp hc)
  · exact fun c => mem_validateRow r c

/-- Witness for C4: the record with both timestamps defined, dropoff before
pickup and an invalid pickup coordinate carries both `dropoff_before_pickup`
and `invalid_pickup_coord`. -/
theorem c4_witness :
    Reason.dropoff_before_pickup ∈ validateRow eg_row ∧
    Reason.invalid_pickup_coord ∈ validateRow eg_row := by
  constructor
  · exact ((c4_validator_all_rules eg_row).2 Reason.dropoff_before_pickup).mpr
      ⟨100, 50, rfl, rfl, by decide⟩
  · exact ((c4_validator_all_rules eg_row).2 Reason.invalid_pickup_coord).mpr rfl

/-- C7: a coordinate pair is valid exactly when both components are defined
and inside latitude [40.4, 40.95], longitude [-74.35, -73.7], boundaries
inclusive; the `invalid_pickup_coord` / `invalid_dropoff_coord` reasons are
present exactly for invalid pairs. -/
theorem c7_bounding_box (lat lon : Option ℚ) (r : Row) :
    (is_valid_coordinate lat lon = true ↔
      ∃ la lo, lat = some la ∧ lon = some lo ∧
        40.4 ≤ la ∧ la ≤ 40.95 ∧ -74.35 ≤ lo ∧ lo ≤ -73.7) ∧
    (Reason.invalid_pickup_coord ∈ validateRow r ↔
      is_valid_coordinate r.pickup_lat r.pickup_lon = false) ∧
    (Reason.invalid_dropoff_coord ∈ validateRow r ↔
      is_valid_coordinate r.dropoff_lat r.dropoff_lon = false) := by
  refine ⟨?_, ?_, ?_⟩
  · rcases lat with _ | la <;> rcases lon with _ | lo <;>
      simp [is_valid_coordinate, MIN_LAT, MAX_LAT, MIN_LON, MAX_LON, and_assoc]
  · exact mem_validateRow r Reason.invalid_pickup_coord
  · exact mem_validateRow r Reason.invalid_dropoff_coord

/-- Witness for C7: the bounding-box corner (40.4, -74.35) is a valid
coordinate and produces no `invalid_pickup_coord` reason. -/
theorem c7_witness :
    is_valid_coordinate (some 40.4) (some (-74.35)) = true ∧
    Reason.invalid_pickup_coord ∉ validateRow boundary_row := by
  have h := c7_bounding_box (some 40.4) (some (-74.35)) boundary_row
  constructor
  · exact h.1.mpr ⟨40.4, -74.35, rfl, rfl, by norm_num, by norm_num, by norm_num, by norm_num⟩
  · intro hm
    have hf := h.2.1.mp hm
    have hv : is_valid_coordinate boundary_row.pickup_lat boundary_row.pickup_lon = true := by
      show is_valid_coordinate (some 40.4) (some (-74.35)) = true
      simp only [is_valid_coordinate, decide_eq_true_eq, MIN_LAT, MAX_LAT, MIN_LON, MAX_LON]
      norm_num
    rw [hv] at hf
    cases hf

/-- C6: the speed derivation is total and guarded: an undefined or
non-positive duration, or an undefined or non-positive distance, yields an
undefined speed; otherwise the speed is `dist / (dur / 3600)`; and the
`unrealistic_speed` reason is present exactly when the speed column is
defined and exceeds 200. -/
theorem c6_speed_guarded (td dist : Option ℚ) (r : Row) :
    ((td = none ∨ (∃ t, td = some t ∧ t ≤ 0) ∨ dist = none ∨
        (∃ d, dist = some d ∧ d ≤ 0)) →
      compute_speed td dist = none) ∧
    (∀ t d, td = some t → dist = some d → 0 < t → 0 < d →
      compute_speed td dist = some (d / (t / 3600))) ∧
    (Reason.unrealistic_speed ∈ validateRow r ↔
      ∃ s, r.trip_speed_kmh = some s ∧ 200 < s) := by
  refine ⟨?_, ?_, ?_⟩
  · intro h
    rcases td with _ | t
    · rfl
    rcases dist with _ | d
    · rfl
    have h2 : t ≤ 0 ∨ d ≤ 0 := by
      rcases h with h | ⟨t', ht', hle⟩ | h | ⟨d', hd', hle⟩
      · cases h
      · cases ht'; exact Or.inl hle
      · cases h
      · cases hd'; exact Or.inr hle
    simp only [compute_speed]
    rw [if_pos h2]
  · intro t d ht hd hpt hpd
    cases ht; cases hd
    have hno : ¬ (t ≤ 0 ∨ d ≤ 0) := by
      intro hor
      rcases hor with hle | hle
      · exact absurd hpt (not_lt.mpr hle)
      · exact absurd hpd (not_lt.mpr hle)
    simp only [compute_speed]
    rw [if_neg hno]
  · exact mem_validateRow r Reason.unrealistic_speed

/-- Witness for C6: a negative duration yields an undefined speed, a
one-hour 100 km trip yields 100 km/h, and a row whose speed column is
250 km/h carries `unrealistic_speed`. -/
theorem c6_witness :
    compute_speed (some (-5)) (some 3) = none ∧
    compute_speed (some 3600) (some 100) = some 100 ∧
    Reason.unrealistic_speed ∈ validateRow speed_row := by
  refine ⟨?_, ?_, ?_⟩
  · exact (c6_speed_guarded (some (-5)) (some 3) speed_row).1
      (Or.inr (Or.inl ⟨-5, rfl, by decide⟩))
  · have h := (c6_speed_guarded (some 3600) (some 100) speed_row).2.1 3600 100 rfl rfl
      (by decide) (by decide)
    rw [h]
    simp only [Option.some.injEq]
    norm_num
  · exact ((c6_speed_guarded none none speed_row).2.2).mpr ⟨250, rfl, by decide⟩

/-- C10: no record ever carries both `missing_timestamps` and
`dropoff_before_pickup`: the dropoff-before-pickup rule only runs when both
timestamps are defined. -/
theorem c10_exclusive (r : Row) :
    ¬ (Reason.missing_timestamps ∈ validateRow r ∧
        Reason.dropoff_before_pickup ∈ validateRow r) := by
  intro h
  obtain ⟨h1, h2⟩ := h
  rw [mem_validateRow] at h1 h2
  simp only [ruleFires] at h1 h2
  obtain ⟨p, d, hp, hd, _⟩ := h2
  rcases h1 with h1 | h1
  · rw [hp] at h1; cases h1
  · rw [hd] at h1; cases h1

/-- Witness for C10, instantiated at a concrete record. -/
theorem c10_witness :
    ¬ (Reason.missing_timestamps ∈ validateRow empty_row ∧
        Reason.dropoff_before_pickup ∈ validateRow empty_row) :=
  c10_exclusive empty_row

/-- C2 (amended): when the chunk's fare column is absent or entirely
undefined, every record's fare is recomputed as
`max(2.50 + dist*2.50 + (dur/60)*0.40, 2.50)` from its own distance and
duration, and is undefined whenever either term is undefined (NaN
propagates; missing terms are not replaced by 0). -/
theorem c2_fare_estimation (hasFareCol : Bool) (rows : List Row) (i : Nat) (r : Row)
    (hcond : hasFareCol = false ∨ rows.all (fun q => q.fare_amount.isNone) = true)
    (hget : rows[i]? = some r) :
    (fare_step hasFareCol rows)[i]? =
      some { r with fare_amount := estimate_fare r.trip_distance_km r.trip_duration_seconds } ∧
    (∀ d t, r.trip_distance_km = some d → r.trip_duration_seconds = some t →
      estimate_fare r.trip_distance_km r.trip_duration_seconds =
        some (max (2.5 + d * 2.5 + t / 60 * 0.4) 2.5)) ∧
    ((r.trip_distance_km = none ∨ r.trip_duration_seconds = none) →
      estimate_fare r.trip_distance_km r.trip_duration_seconds = none) := by
  refine ⟨?_, ?_, ?_⟩
  · have hc : (!hasFareCol || rows.all (fun q => q.fare_amount.isNone)) = true := by
      rcases hcond with h | h
      · rw [h]; rfl
      · rw [h]; simp
    unfold fare_step
    rw [hc]
    simp [List.getElem?_map, hget]
  · intro d t hd ht
    rw [hd, ht]
    simp [estimate_fare, opt_add, opt_mul, clip_lower]
  · intro h
    rcases h with h | h <;> rw [h] <;>
      rcases hdt : r.trip_duration_seconds with _ | t <;>
        rcases hdd : r.trip_distance_km with _ | d <;>
          simp [estimate_fare, opt_add, opt_mul, clip_lower]

/-- Counterexample to C2 as stated: in a chunk whose bound fare column has
at least one defined value, a record with undefined fare keeps an undefined
fare even though its distance (4 km) and duration (600 s) are defined, so
its derived fare is not 16.50. -/
theorem c2_counterexample :
    (fare_step true [ce2_r1, ce2_r2]).map (fun r => r.fare_amount) = [some 10, none] ∧
    (none : Option ℚ) ≠ some 16.5 := by
  constructor
  · rfl
  · intro h; cases h

/-- Witness for C2: the spec's own scenario — no fare column bound,
distance 4 km, duration 600 s — produces the estimated fare 16.50. -/
theorem c2_witness :
    (fare_step false [ce2_r2])[0]? =
      some { ce2_r2 with
        fare_amount := estimate_fare ce2_r2.trip_distance_km ce2_r2.trip_duration_seconds } ∧
    estimate_fare ce2_r2.trip_distance_km ce2_r2.trip_duration_seconds = some 16.5 := by
  have h := c2_fare_estimation false [ce2_r2] 0 ce2_r2 (Or.inl rfl) rfl
  constructor
  · exact h.1
  · have h2 := h.2.1 4 600 rfl rfl
    rw [h2]
    simp only [Option.some.injEq]
    rw [show (2.5 + 4 * 2.5 + 600 / 60 * 0.4 : ℚ) = 16.5 by norm_num]
    exact max_eq_left (by norm_num)

/-- C5: the miles-to-kilometers conversion is a once-per-chunk decision on
the chunk's own statistics: when the non-NaN values of the bound distance
column are non-empty with mean under 200 and median under 30, every entry
of the column is multiplied by 1.60934; otherwise every entry is unchanged. -/
theorem c5_unit_conversion (col : List (Option ℚ)) :
    (0 < (col.filterMap id).length ∧ meanQ (col.filterMap id) < 200 ∧
        medianQ (col.filterMap id) < 30 →
      ∀ i : Nat, (convert_distance_units col)[i]? =
        (col[i]?).map (Option.map (fun x : ℚ => x * 1.60934))) ∧
    (¬ (0 < (col.filterMap id).length ∧ meanQ (col.filterMap id) < 200 ∧
        medianQ (col.filterMap id) < 30) →
      ∀ i : Nat, (convert_distance_units col)[i]? = col[i]?) := by
  constructor
  · intro h i
    unfold convert_distance_units
    rw [if_pos h]
    exact List.getElem?_map ..
  · intro h i
    unfold convert_distance_units
    rw [if_neg h]

/-- Witness for C5: a bound distance column whose defined values have mean
and median 8.2 satisfies the heuristic and gets converted. -/
theorem c5_witness :
    (0 < (c5_col.filterMap id).length ∧ meanQ (c5_col.filterMap id) < 200 ∧
      medianQ (c5_col.filterMap id) < 30) ∧
    (convert_distance_units c5_col)[0]? =
      (c5_col[0]?).map (Option.map (fun x : ℚ => x * 1.60934)) := by
  have hf : c5_col.filterMap id = [(8.2 : ℚ)] := rfl
  have hcond : 0 < (c5_col.filterMap id).length ∧ meanQ (c5_col.filterMap id) < 200 ∧
      medianQ (c5_col.filterMap id) < 30 := by
    rw [hf]
    refine ⟨by decide, ?_, ?_⟩
    · norm_num [meanQ]
    · norm_num [medianQ, sortQ, insert_sorted]
  exact ⟨hcond, (c5_unit_conversion c5_col).1 hcond 0⟩

/-- The chunk loop of `main`, unrolled: starting from any log file and any
chunk index, it appends exactly one entry per chunk, indexed consecutively
from `idx + 1`, and never touches existing entries or the header. -/
theorem etl_loop_spec (chunks : List (List Row)) :
    ∀ (file : LogFile) (idx : Nat),
      etl_loop file idx chunks =
        { hasHeader := file.hasHeader,
          entries := file.entries ++
            (List.enumFrom (idx + 1) chunks).map (fun p => chunk_log_entry p.1 p.2) } := by
  induction chunks with
  | nil => intro file idx; simp [etl_loop, List.enumFrom]
  | cons ch rest ih =>
      intro file idx
      simp [etl_loop, List.enumFrom, ih, List.append_assoc]

/-- C9: one run appends exactly one log row per processed chunk — carrying
the 1-based chunk index, the chunk's excluded-row count and the first
excluded row's reason string (empty when none) — after creating the file
with its header when it was absent; pre-existing rows are preserved as a
prefix, never mutated or deleted. -/
theorem c9_cleaning_log (f0 : Option LogFile) (chunks : List (List Row)) :
    ensure_log none = { hasHeader := true, entries := [] } ∧
    (run_etl_log f0 chunks).hasHeader = (ensure_log f0).hasHeader ∧
    (run_etl_log f0 chunks).entries =
      (ensure_log f0).entries ++
        (List.enumFrom 1 chunks).map (fun p => chunk_log_entry p.1 p.2) := by
  refine ⟨rfl, ?_, ?_⟩
  · unfold run_etl_log
    rw [etl_loop_spec]
  · unfold run_etl_log
    rw [etl_loop_spec]

theorem atan2_zero_one : atan2 0 1 = 0 := by
  unfold atan2
  rw [if_pos (by norm_num : (0:ℝ) < 1)]
  norm_num [Real.arctan_zero]

theorem hav_a_self (la lo : ℝ) : hav_a la lo la lo = 0 := by
  unfold hav_a
  simp

theorem hav_core_self (la lo : ℝ) : hav_core la lo la lo = 0 := by
  unfold hav_core
  rw [hav_a_self, Real.sqrt_zero, show (1:ℝ) - 0 = 1 by norm_num, Real.sqrt_one,
    atan2_zero_one]
  ring

theorem sin_half_sub_sq (x y : ℝ) : Real.sin ((x - y) / 2) ^ 2 = Real.sin ((y - x) / 2) ^ 2 := by
  rw [show (x - y) / 2 = -((y - x) / 2) by ring, Real.sin_neg, neg_sq]

theorem hav_a_symm (la1 lo1 la2 lo2 : ℝ) : hav_a la1 lo1 la2 lo2 = hav_a la2 lo2 la1 lo1 := by
  unfold hav_a
  rw [sin_half_sub_sq (la2 * Real.pi / 180) (la1 * Real.pi / 180),
    sin_half_sub_sq (lo2 * Real.pi / 180) (lo1 * Real.pi / 180)]
  ring

theorem hav_core_symm (la1 lo1 la2 lo2 : ℝ) :
    hav_core la1 lo1 la2 lo2 = hav_core la2 lo2 la1 lo1 := by
  unfold hav_core
  rw [hav_a_symm]

/-- C8: the haversine distance from a defined point to itself is 0, and the
function is symmetric in its two coordinate pairs. -/
theorem c8_haversine (la1 lo1 la2 lo2 : ℝ) :
    haversine_distance (some la1) (some lo1) (some la1) (some lo1) = some 0 ∧
    haversine_distance (some la1) (some lo1) (some la2) (some lo2) =
      haversine_distance (some la2) (some lo2) (some la1) (some lo1) := by
  constructor
  · show some (hav_core la1 lo1 la1 lo1) = some 0
    rw [hav_core_self]
  · show some (hav_core la1 lo1 la2 lo2) = some (hav_core la2 lo2 la1 lo1)
    rw [hav_core_symm]

/-- C3 (amended): when the chunk's distance column is absent or entirely
undefined, every record's distance is recomputed as the haversine distance
between its pickup and dropoff coordinates (Earth radius 6371 km), which is
undefined whenever any coordinate component is undefined. -/
theorem c3_distance_derivation (hasDistanceCol : Bool) (rows : List RRow) (i : Nat) (r : RRow)
    (hcond : hasDistanceCol = false ∨ rows.all (fun q => q.trip_distance_km.isNone) = true)
    (hget : rows[i]? = some r) :
    (distance_step hasDistanceCol rows)[i]? =
      some { r with trip_distance_km :=
        (haversine_distance r.pickup_lat r.pickup_lon r.dropoff_lat r.dropoff_lon) } ∧
    ((r.pickup_lat = none ∨ r.pickup_lon = none ∨ r.dropoff_lat = none ∨
        r.dropoff_lon = none) →
      haversine_distance r.pickup_lat r.pickup_lon r.dropoff_lat r.dropoff_lon = none) := by
  constructor
  · have hc : (!hasDistanceCol || rows.all (fun q => q.trip_distance_km.isNone)) = true := by
      rcases hcond with h | h
      · rw [h]; rfl
      · rw [h]; simp
    unfold distance_step
    rw [hc]
    simp [List.getElem?_map, hget]
  · intro h
    rcases h with h | h | h | h
    · rw [h]; rfl
    · rw [h]
      rcases r.pickup_lat with _ | a <;> rfl
    · rw [h]
      rcases r.pickup_lat with _ | a <;> rcases r.pickup_lon with _ | b <;> rfl
    · rw [h]
      rcases r.pickup_lat with _ | a <;> rcases r.pickup_lon with _ | b <;>
        rcases r.dropoff_lat with _ | c <;> rfl

/-- Counterexample to C3 as stated: in a chunk whose bound distance column
has at least one defined value, a record with undefined distance keeps an
undefined distance even though its coordinates are defined (here the
haversine distance would be 0 for coincident points). -/
theorem c3_counterexample :
    (distance_step true [ce3_r1, ce3_r2])[1]? = some ce3_r2 ∧
    ce3_r2.trip_distance_km = none ∧
    haversine_distance ce3_r2.pickup_lat ce3_r2.pickup_lon ce3_r2.dropoff_lat
      ce3_r2.dropoff_lon = some 0 := by
  refine ⟨rfl, rfl, ?_⟩
  show some (hav_core 40.5 (-74) 40.5 (-74)) = some 0
  rw [hav_core_self]

/-- Witness for C3: a chunk whose distance column is entirely undefined has
every record's distance replaced by the haversine value, which is undefined
when the coordinates are undefined. -/
theorem c3_witness :
    (distance_step false [empty_rrow])[0]? =
      some { empty_rrow with trip_distance_km :=
        (haversine_distance empty_rrow.pickup_lat empty_rrow.pickup_lon
          empty_rrow.dropoff_lat empty_rrow.dropoff_lon) } ∧
    haversine_distance empty_rrow.pickup_lat empty_rrow.pickup_lon empty_rrow.dropoff_lat
      empty_rrow.dropoff_lon = none := by
  have h := c3_distance_derivation false [empty_rrow] 0 empty_rrow (Or.inl rfl) rfl
  exact ⟨h.1, h.2 (Or.inl rfl)⟩

theorem find_vendor_append_some {c : String} {l l2 : List (String × Nat)} {v : Nat}
    (h : find_vendor c l = some v) : find_vendor c (l ++ l2) = some v := by
  induction l with
  | nil => cases h
  | cons p rest ih =>
      obtain ⟨k, w⟩ := p
      by_cases hk : c = k
      · simp [find_vendor, hk] at h ⊢
        exact h
      · simp [find_vendor, hk] at h ⊢
        exact ih h

theorem find_vendor_append_self {c : String} {l : List (String × Nat)} {v : Nat}
    (h : find_vendor c l = none) : find_vendor c (l ++ [(c, v)]) = some v := by
  induction l with
  | nil => simp [find_vendor]
  | cons p rest ih =>
      obtain ⟨k, w⟩ := p
      by_cases hk : c = k
      · simp [find_vendor, hk] at h
      · simp [find_vendor, hk] at h ⊢
        exact ih h

theorem find_vendor_append_ne {c k : String} {l : List (String × Nat)} {v : Nat}
    (h : c ≠ k) : find_vendor c (l ++ [(k, v)]) = find_vendor c l := by
  induction l with
  | nil => simp [find_vendor, h]
  | cons p rest ih =>
      obtain ⟨k2, w⟩ := p
      by_cases hk : c = k2 <;> simp [find_vendor, hk, ih]

theorem find_vendor_append_elim {c : String} {l : List (String × Nat)} {k : String} {w v : Nat}
    (h : find_vendor c (l ++ [(k, w)]) = some v) :
    find_vendor c l = some v ∨ (c = k ∧ v = w ∧ find_vendor c l = none) := by
  induction l with
  | nil =>
      by_cases hk : c = k
      · simp [find_vendor, hk] at h
        exact Or.inr ⟨hk, h.symm, rfl⟩
      · simp [find_vendor, hk] at h
  | cons p rest ih =>
      obtain ⟨k2, w2⟩ := p
      by_cases hk : c = k2
      · simp [find_vendor, hk] at h ⊢
        exact h
      · simp [find_vendor, hk] at h ⊢
        exact ih h

theorem count_code_append (c : String) (l1 l2 : List String) :
    count_code c (l1 ++ l2) = count_code c l1 + count_code c l2 := by
  induction l1 with
  | nil => simp [count_code]
  | cons x rest ih => simp [count_code, ih, Nat.add_assoc]

theorem gocv_mono {st : VendorStore} {c d : String} {v : Nat}
    (h : find_vendor d st.vendors = some v) :
    find_vendor d (get_or_create_vendor st c).store.vendors = some v := by
  cases hf : find_vendor c st.vendors with
  | none =>
      simp [get_or_create_vendor, hf]
      exact find_vendor_append_some h
  | some w =>
      simp [get_or_create_vendor, hf]
      exact h

theorem gocv_self (st : VendorStore) (c : String) :
    find_vendor c (get_or_create_vendor st c).store.vendors =
      some (get_or_create_vendor st c).vid := by
  cases hf : find_vendor c st.vendors with
  | none => simp [get_or_create_vendor, hf, find_vendor_append_self hf]
  | some w => simp [get_or_create_vendor, hf]

theorem gocv_count (st : VendorStore) (c a : String) :
    count_code a (get_or_create_vendor st c).ins +
        miss_ind a (get_or_create_vendor st c).store ≤
      miss_ind a st := by
  cases hf : find_vendor c st.vendors with
  | none =>
      by_cases ha : a = c
      · subst ha
        simp [get_or_create_vendor, hf, count_code, miss_ind, find_vendor_append_self hf]
      · simp [get_or_create_vendor, hf, count_code, ha, miss_ind,
          find_vendor_append_ne ha]
  | some w => simp [get_or_create_vendor, hf, count_code, miss_ind]

theorem resolve_row_mono {s : ResolveState} {code : Option String} {d : String} {v : Nat}
    (h : find_vendor d s.store.vendors = some v) :
    find_vendor d (resolve_row s code).2.store.vendors = some v := by
  rcases code with _ | c
  · exact h
  · by_cases hc : c = ""
    · simp [resolve_row, hc]
      exact h
    · cases hf : find_vendor c s.cache with
      | none =>
          simp [resolve_row, hc, hf]
          exact gocv_mono h
      | some w =>
          simp [resolve_row, hc, hf]
          exact h

theorem resolve_row_cacheOk {s : ResolveState} {code : Option String} (h : cacheOk s) :
    cacheOk (resolve_row s code).2 := by
  rcases code with _ | c
  · exact h
  · by_cases hc : c = ""
    · simpa [resolve_row, hc] using h
    · cases hf : find_vendor c s.cache with
      | none =>
          intro a v hav
          simp [resolve_row, hc, hf] at hav ⊢
          rcases find_vendor_append_elim hav with h1 | ⟨h1, h2, h3⟩
          · exact gocv_mono (h a v h1)
          · subst h1
            subst h2
            exact gocv_self s.store a
      | some w => simpa [resolve_row, hc, hf] using h

theorem resolve_row_count (s : ResolveState) (code : Option String) (a : String) :
    count_code a (resolve_row s code).2.ins + miss_ind a (resolve_row s code).2.store ≤
      count_code a s.ins + miss_ind a s.store := by
  rcases code with _ | c
  · exact le_refl _
  · by_cases hc : c = ""
    · simp [resolve_row, hc]
    · cases hf : find_vendor c s.cache with
      | none =>
          simp [resolve_row, hc, hf, count_code_append]
          have h := gocv_count s.store c a
          omega
      | some w => simp [resolve_row, hc, hf]

theorem resolve_row_res {s : ResolveState} {c : String} (hok : cacheOk s) (hc : ¬ c = "") :
    ∃ v, (resolve_row s (some c)).1 = some v ∧
      find_vendor c (resolve_row s (some c)).2.store.vendors = some v := by
  cases hf : find_vendor c s.cache with
  | none =>
      refine ⟨(get_or_create_vendor s.store c).vid, ?_, ?_⟩
      · simp [resolve_row, hc, hf]
      · simp [resolve_row, hc, hf]
        exact gocv_self s.store c
  | some w =>
      refine ⟨w, ?_, ?_⟩
      · simp [resolve_row, hc, hf]
      · simp [resolve_row, hc, hf]
        exact hok c w hf

theorem resolve_rows_mono (codes : List (Option String)) :
    ∀ (s : ResolveState) (d : String) (v : Nat),
      find_vendor d s.store.vendors = some v →
      find_vendor d (resolve_rows s codes).2.store.vendors = some v := by
  induction codes with
  | nil => intro s d v h; exact h
  | cons code rest ih =>
      intro s d v h
      simp only [resolve_rows]
      exact ih _ d v (resolve_row_mono h)

theorem resolve_rows_cacheOk (codes : List (Option String)) :
    ∀ s : ResolveState, cacheOk s → cacheOk (resolve_rows s codes).2 := by
  induction codes with
  | nil => intro s h; exact h
  | cons code rest ih =>
      intro s h
      simp only [resolve_rows]
      exact ih _ (resolve_row_cacheOk h)

theorem resolve_rows_count (codes : List (Option String)) :
    ∀ (s : ResolveState) (a : String),
      count_code a (resolve_rows s codes).2.ins +
          miss_ind a (resolve_rows s codes).2.store ≤
        count_code a s.ins + miss_ind a s.store := by
  induction codes with
  | nil => intro s a; exact le_refl _
  | cons code rest ih =>
      intro s a
      simp only [resolve_rows]
      exact le_trans (ih (resolve_row s code).2 a) (resolve_row_count s code a)

theorem resolve_rows_pos (codes : List (Option String)) :
    ∀ (s : ResolveState) (j : Nat) (c : String), cacheOk s → ¬ c = "" →
      codes[j]? = some (some c) →
      ∃ v, (resolve_rows s codes).1[j]? = some (some v) ∧
        find_vendor c (resolve_rows s codes).2.store.vendors = some v := by
  induction codes with
  | nil => intro s j c hok hc h; simp at h
  | cons code rest ih =>
      intro s j c hok hc h
      cases j with
      | zero =>
          simp at h
          subst h
          obtain ⟨v, hres, hfind⟩ := resolve_row_res hok hc
          refine ⟨v, ?_, ?_⟩
          · simp only [resolve_rows, List.getElem?_cons_zero]
            rw [hres]
          · simp only [resolve_rows]
            exact resolve_rows_mono rest _ c v hfind
      | succ j2 =>
          simp only [List.getElem?_cons_succ] at h
          obtain ⟨v, h1, h2⟩ := ih (resolve_row s code).2 j2 c (resolve_row_cacheOk hok) hc h
          refine ⟨v, ?_, ?_⟩
          · simp only [resolve_rows, List.getElem?_cons_succ]
            exact h1
          · simp only [resolve_rows]
            exact h2

theorem run_resolve_mono (chunks : List (List (Option String))) :
    ∀ (st : VendorStore) (ins : List String) (d : String) (v : Nat),
      find_vendor d st.vendors = some v →
      find_vendor d (run_resolve st ins chunks).2.1.vendors = some v := by
  induction chunks with
  | nil => intro st ins d v h; exact h
  | cons ch rest ih =>
      intro st ins d v h
      simp only [run_resolve]
      exact ih _ _ d v
        (resolve_rows_mono ch { store := st, cache := [], ins := ins } d v h)

theorem run_resolve_count (chunks : List (List (Option String))) :
    ∀ (st : VendorStore) (ins : List String) (a : String),
      count_code a (run_resolve st ins chunks).2.2 +
          miss_ind a (run_resolve st ins chunks).2.1 ≤
        count_code a ins + miss_ind a st := by
  induction chunks with
  | nil => intro st ins a; exact le_refl _
  | cons ch rest ih =>
      intro st ins a
      simp only [run_resolve]
      exact le_trans (ih _ _ a)
        (resolve_rows_count ch { store := st, cache := [], ins := ins } a)

theorem empty_cacheOk (st : VendorStore) (ins : List String) :
    cacheOk { store := st, cache := [], ins := ins } := by
  intro a v hav
  simp [find_vendor] at hav

theorem run_resolve_pos (chunks : List (List (Option String))) :
    ∀ (st : VendorStore) (ins : List String) (i j : Nat) (ch : List (Option String))
      (c : String), ¬ c = "" → chunks[i]? = some ch → ch[j]? = some (some c) →
      ∃ v, ((run_resolve st ins chunks).1[i]?).bind (fun l => l[j]?) = some (some v) ∧
        find_vendor c (run_resolve st ins chunks).2.1.vendors = some v := by
  induction chunks with
  | nil => intro st ins i j ch c hc hi hj; simp at hi
  | cons ch0 rest ih =>
      intro st ins i j ch c hc hi hj
      cases i with
      | zero =>
          have hch : ch0 = ch := by simpa using hi
          subst hch
          obtain ⟨v, h1, h2⟩ :=
            resolve_rows_pos ch0 { store := st, cache := [], ins := ins } j c
              (empty_cacheOk st ins) hc hj
          refine ⟨v, ?_, ?_⟩
          · simp only [run_resolve, List.getElem?_cons_zero, Option.some_bind]
            exact h1
          · simp only [run_resolve]
            exact run_resolve_mono rest _ _ c v h2
      | succ i2 =>
          simp only [List.getElem?_cons_succ] at hi
          obtain ⟨v, h1, h2⟩ := ih _ _ i2 j ch c hc hi hj
          refine ⟨v, ?_, ?_⟩
          · simp only [run_resolve, List.getElem?_cons_succ]
            exact h1
          · simp only [run_resolve]
            exact h2

theorem chunk_second_hit (st : VendorStore) (c : String) (hc : ¬ c = "") :
    (resolve_rows { store := st, cache := [], ins := [] } [some c, some c]).2.store.selects =
      st.selects + 1 := by
  cases hf : find_vendor c st.vendors with
  | none => simp [resolve_rows, resolve_row, hc, find_vendor, get_or_create_vendor, hf]
  | some w => simp [resolve_rows, resolve_row, hc, find_vendor, get_or_create_vendor, hf]

/-- C1 (amended): within one run, at most one vendors row is ever inserted
per code; every resolution of a given code returns the surrogate id that
the final store holds for that code (so repeated resolutions agree); and
within a single chunk a repeated resolution is served from the chunk's
cache with no further store access (exactly one SELECT for two
resolutions).  Across chunk boundaries the cache is recreated, so a later
chunk's resolution does perform a store lookup. -/
theorem c1_vendor_resolution (st0 : VendorStore) (chunks : List (List (Option String)))
    (c : String) (hc : ¬ c = "") :
    count_code c (run_resolve st0 [] chunks).2.2 ≤ 1 ∧
    (∀ (i j : Nat) (ch : List (Option String)), chunks[i]? = some ch →
      ch[j]? = some (some c) →
      ∃ v, ((run_resolve st0 [] chunks).1[i]?).bind (fun l => l[j]?) = some (some v) ∧
        find_vendor c (run_resolve st0 [] chunks).2.1.vendors = some v) ∧
    (∀ st : VendorStore,
      (resolve_rows { store := st, cache := [], ins := [] }
          [some c, some c]).2.store.selects = st.selects + 1) := by
  refine ⟨?_, ?_, ?_⟩
  · have h := run_resolve_count chunks st0 [] c
    have h0 : count_code c ([] : List String) = 0 := rfl
    have h1 : miss_ind c st0 ≤ 1 := by
      unfold miss_ind
      split <;> omega
    omega
  · intro i j ch hi hj
    exact run_resolve_pos chunks st0 [] i j ch c hc hi hj
  · intro st
    exact chunk_second_hit st c hc

/-- Counterexample to C1 as stated: resolving code A in two successive
chunks of the same run performs a second SELECT (the selects counter goes
from 1 to 2, so the second resolution is not served from a cache with no
store access), even though both resolutions return id 0 and only one row
is inserted. -/
theorem c1_counterexample :
    (run_resolve st0ex [] [[some codeA], [some codeA]]).2.1.selects = 2 ∧
    (run_resolve st0ex [] [[some codeA]]).2.1.selects = 1 ∧
    (run_resolve st0ex [] [[some codeA], [some codeA]]).1 = [[some 0], [some 0]] ∧
    (run_resolve st0ex [] [[some codeA], [some codeA]]).2.2 = [codeA] := by
  refine ⟨rfl, rfl, rfl, rfl⟩

/-- Witness for C1: the amended theorem instantiated at the two-chunk run
of code A from the empty store. -/
theorem c1_witness :
    count_code codeA (run_resolve st0ex [] [[some codeA], [some codeA]]).2.2 ≤ 1 ∧
    (resolve_rows { store := st0ex, cache := [], ins := [] }
        [some codeA, some codeA]).2.store.selects = 1 := by
  have h := c1_vendor_resolution st0ex [[some codeA], [some codeA]] codeA (by decide)
  refine ⟨h.1, ?_⟩
  have h2 := h.2.2 st0ex
  simpa [st0ex] using h2

end ETL
